import Mathlib

/-!
Shallow embedding of the seat-reservation core of `bhavani7.py`
(a single-file Flask + SQLite booking app).

The database is modelled as a record of tables (lists of rows mirroring the
SQLite schema).  The `/book` handler (`book_seats`) is embedded as a pure
state-transition function: its SQLite transaction (`BEGIN` .. `commit` /
`rollback`) is modelled atomically — SQLite serializes transactions, and every
error path of the handler rolls back, returning the pre-call database.  An
extra boolean argument `dbFail` injects an `sqlite3.Error` at the commit
point, modelling the handler's `except sqlite3.Error` branch: rollback
restores the snapshot, so the pre-call database is returned.

Timestamps (`created_at`, ISO-8601 strings in the source, which compare
chronologically as text) are modelled as naturals.  `AUTOINCREMENT` booking
ids are modelled by the `next_booking_id` counter.
-/

/-- A row of the `cinemas` table. -/
structure Cinema where
  id : Nat
  name : String
  area : String
  address : String
deriving DecidableEq, Repr

/-- A row of the `movies` table. -/
structure Movie where
  id : Nat
  title : String
  duration_minutes : Nat
  language : String
deriving DecidableEq, Repr

/-- A row of the `shows` table. -/
structure ShowRow where
  id : Nat
  cinema_id : Nat
  movie_id : Nat
  show_time : String
  screen : String
  price : Int
deriving DecidableEq, Repr

/-- A row of the `seats` table.  `status` is the literal SQLite text
(`"available"` / `"booked"` in all rows the app creates). -/
structure SeatRow where
  id : Nat
  show_id : Nat
  seat_label : String
  status : String
deriving DecidableEq, Repr

/-- A row of the `bookings` table.  `seats` is the comma-separated label
string the handler stores; `created_at` is the timestamp. -/
structure BookingRow where
  id : Nat
  show_id : Nat
  customer_name : String
  seats : String
  total_price : Int
  created_at : Nat
deriving DecidableEq, Repr

/-- The whole SQLite database. `next_booking_id` models the
`AUTOINCREMENT` counter of the `bookings` table (`cur.lastrowid`). -/
structure DB where
  cinemas : List Cinema
  movies : List Movie
  shows : List ShowRow
  seats : List SeatRow
  bookings : List BookingRow
  next_booking_id : Nat
deriving DecidableEq, Repr

/-- The JSON+status responses `book_seats` can produce, one constructor per
`return` statement of the handler (the `Missing fields` return is excluded:
the embedding's typed signature already supplies all three fields). -/
inductive BookResult where
  /-- a 400 response (`Seats must be a non-empty list ...` or
  `Seat ... does not exist`). -/
  | badRequest (msg : String)
  /-- the 404 `Show not found` response. -/
  | notFound
  /-- the 409 `Seat ... is already booked` response. -/
  | conflict (msg : String)
  /-- the 500 `Database error` response of the `except sqlite3.Error` branch. -/
  | dbError
  /-- the 201 success response. -/
  | created (booking_id : Nat) (show_id : Nat) (seats : List String) (total_price : Int)
deriving DecidableEq, Repr

/-- The HTTP status code of each response. -/
def BookResult.httpStatus : BookResult → Nat
  | .badRequest _ => 400
  | .notFound => 404
  | .conflict _ => 409
  | .dbError => 500
  | .created _ _ _ _ => 201

/-- Whether the response is the 201 success response. -/
def BookResult.isCreated : BookResult → Bool
  | .created _ _ _ _ => true
  | _ => false

/-- Whether the response is a 400 response. -/
def BookResult.isBadRequest : BookResult → Bool
  | .badRequest _ => true
  | _ => false

/-- Whether the response is a 409 response. -/
def BookResult.isConflict : BookResult → Bool
  | .conflict _ => true
  | _ => false

/-- The `found` dictionary of the handler: the availability query
`SELECT seat_label, status FROM seats WHERE show_id=? AND seat_label IN (...)`
followed by `found = {r[seat_label]: r[status] for r in rows}`.
A Python dict comprehension keeps the LAST row for a repeated key, hence the
`reverse.find?`. -/
def foundStatus (db : DB) (show_id : Nat) (seats_req : List String)
    (lbl : String) : Option String :=
  (((db.seats.filter
        (fun t => t.show_id == show_id && seats_req.contains t.seat_label)).reverse.find?
      (fun t => t.seat_label == lbl)).map (fun t => t.status))

/-- The validation loop of the handler:
`for s in seats_req: if s not in found: ... 400 ...; if found[s] != available: ... 409 ...`.
Returns `some` error response for the first offending label, `none` if
every requested label exists and is available. -/
def checkSeats (found : String → Option String) : List String → Option BookResult
  | [] => none
  | s :: rest =>
    match found s with
    | none => some (.badRequest ("Seat " ++ s ++ " does not exist"))
    | some st =>
      if st = "available" then checkSeats found rest
      else some (.conflict ("Seat " ++ s ++ " is already booked"))

/-- The net effect, on one `seats` row, of the handler's update loop
`for s in seats_req: UPDATE seats SET status=booked WHERE show_id=? AND seat_label=?`:
a row matching the show and one of the requested labels is set to `booked`,
every other row is untouched. -/
def bookSeat (show_id : Nat) (seats_req : List String) (t : SeatRow) : SeatRow :=
  if t.show_id == show_id && seats_req.contains t.seat_label then
    { t with status := "booked" }
  else t

/-- Python's `str.strip()` used on the customer name: drop whitespace from
both ends of the string. -/
def pyStrip (s : String) : String :=
  ⟨((s.data.dropWhile Char.isWhitespace).reverse.dropWhile
      Char.isWhitespace).reverse⟩

/-- The booking row the handler inserts on success (`customer` is
`data[customer_name].strip()`, `seats` the comma-joined labels). -/
def mkBooking (db : DB) (show_id : Nat) (customer_name : String)
    (seats_req : List String) (now : Nat) (price : Int) : BookingRow :=
  { id := db.next_booking_id, show_id := show_id,
    customer_name := pyStrip customer_name,
    seats := String.intercalate "," seats_req,
    total_price := price * (seats_req.length : Int), created_at := now }

/-- The `POST /book` handler `book_seats`, as one atomic transaction.
Arguments mirror the request body (`show_id`, `customer_name`, `seats`);
`now` is `datetime.now()`; `dbFail` injects an `sqlite3.Error` at commit
(that branch rolls back, so the pre-call database is returned).
Every error `return` of the handler follows a `rollback`, so each error
case yields the unchanged database. -/
def book_seats (dbFail : Bool) (db : DB) (show_id : Nat)
    (customer_name : String) (seats_req : List String) (now : Nat) :
    BookResult × DB :=
  if seats_req.isEmpty then
    (.badRequest "Seats must be a non-empty list like [A1,A2]", db)
  else
    match db.shows.find? (fun s => s.id == show_id) with
    | none => (.notFound, db)
    | some sh =>
      match checkSeats (foundStatus db show_id seats_req) seats_req with
      | some err => (err, db)
      | none =>
        if dbFail then (.dbError, db)
        else
          (.created db.next_booking_id show_id seats_req
             (sh.price * (seats_req.length : Int)),
           { db with
               seats := db.seats.map (bookSeat show_id seats_req),
               bookings := db.bookings ++
                 [mkBooking db show_id customer_name seats_req now sh.price],
               next_booking_id := db.next_booking_id + 1 })

/-- The `GET /shows/<id>/seats` handler `seats_for_show`:
`SELECT seat_label, status FROM seats WHERE show_id=? ORDER BY seat_label`,
wrapped as `{show_id: ..., seats: [...]}`.  It has no failure path. -/
def seats_for_show (db : DB) (show_id : Nat) : Nat × List (String × String) :=
  (show_id,
   List.insertionSort (fun a b => a.1 ≤ b.1)
     ((db.seats.filter (fun t => t.show_id == show_id)).map
       (fun t => (t.seat_label, t.status))))

/-- A row of the `GET /bookings` result: the eight selected columns of the
three-way join. -/
structure BookingListingRow where
  id : Nat
  show_id : Nat
  customer_name : String
  seats : String
  total_price : Int
  created_at : Nat
  movie_title : String
  cinema_name : String
deriving DecidableEq, Repr

/-- The inner join of one `bookings` row with `shows`, `movies` and
`cinemas` (the `JOIN ... ON` clauses of the `GET /bookings` query); `none`
when a referenced row is missing (an inner join drops the booking). -/
def joinBookingRow (db : DB) (b : BookingRow) : Option BookingListingRow :=
  (db.shows.find? (fun s => s.id == b.show_id)).bind (fun s =>
    (db.movies.find? (fun m => m.id == s.movie_id)).bind (fun m =>
      (db.cinemas.find? (fun c => c.id == s.cinema_id)).map (fun c =>
        { id := b.id, show_id := b.show_id,
          customer_name := b.customer_name, seats := b.seats,
          total_price := b.total_price, created_at := b.created_at,
          movie_title := m.title, cinema_name := c.name })))

/-- The `GET /bookings` handler `list_bookings`: inner join of `bookings`
with `shows`, `movies` and `cinemas`, ordered by `created_at DESC`
(most recent first). -/
def list_bookings (db : DB) : List BookingListingRow :=
  List.insertionSort (fun a b => b.created_at ≤ a.created_at)
    (db.bookings.filterMap (joinBookingRow db))

/-- A tiny concrete database used by the witnesses and counterexamples:
one cinema, one movie, one show (id 1, price 150) with seats A1, A2, B1. -/
def exDB : DB :=
  { cinemas := [{ id := 1, name := "Innovative Filmplex", area := "Jayanagar",
                  address := "12th Main, Jayanagar" }],
    movies := [{ id := 1, title := "Flight of Fancy", duration_minutes := 140,
                 language := "English" }],
    shows := [{ id := 1, cinema_id := 1, movie_id := 1, show_time := "T",
                screen := "Screen 1", price := 150 }],
    seats := [{ id := 1, show_id := 1, seat_label := "A1", status := "available" },
              { id := 2, show_id := 1, seat_label := "A2", status := "available" },
              { id := 3, show_id := 1, seat_label := "B1", status := "available" }],
    bookings := [],
    next_booking_id := 1 }

/-- `exDB` with seat A1 already booked. -/
def exDBbooked : DB :=
  { exDB with
    seats := [{ id := 1, show_id := 1, seat_label := "A1", status := "booked" },
              { id := 2, show_id := 1, seat_label := "A2", status := "available" },
              { id := 3, show_id := 1, seat_label := "B1", status := "available" }] }

/-- `exDB` with a second show (id 2) that has no seat rows at all. -/
def exDBshow2 : DB :=
  { exDB with
    shows := exDB.shows ++
      [{ id := 2, cinema_id := 1, movie_id := 1, show_time := "T2",
         screen := "Screen 2", price := 170 }] }

/-- `exDB` with two committed bookings (created at times 3 and 5). -/
def exDBhist : DB :=
  { exDB with
    bookings := [{ id := 1, show_id := 1, customer_name := "Asha",
                   seats := "A1", total_price := 150, created_at := 3 },
                 { id := 2, show_id := 1, customer_name := "Ravi",
                   seats := "A2", total_price := 150, created_at := 5 }],
    next_booking_id := 3 }

/-! ### Lemmas about the validation loop -/

/-- The validation loop passes exactly when every requested label is found
with status `available`. -/
theorem checkSeats_eq_none_iff (found : String → Option String) :
    ∀ req : List String,
      checkSeats found req = none ↔ ∀ l ∈ req, found l = some "available"
  | [] => by simp [checkSeats]
  | s :: rest => by
    cases h : found s with
    | none => simp [checkSeats, h]
    | some st =>
      by_cases hav : st = "available"
      · subst hav
        simp [checkSeats, h, checkSeats_eq_none_iff found rest]
      · simp only [checkSeats, h, if_neg hav, List.mem_cons]
        constructor
        · intro hc; cases hc
        · intro hall
          have := hall s (Or.inl rfl)
          rw [h] at this
          exact absurd (Option.some.inj this) hav

/-- The validation loop never produces the success response. -/
theorem checkSeats_isCreated_false (found : String → Option String) :
    ∀ (req : List String) (res : BookResult),
      checkSeats found req = some res → res.isCreated = false
  | [], res => by simp [checkSeats]
  | s :: rest, res => by
    cases h : found s with
    | none =>
      intro hres
      simp [checkSeats, h] at hres
      simp [← hres, BookResult.isCreated]
    | some st =>
      by_cases hav : st = "available"
      · subst hav
        intro hres
        simp only [checkSeats, h, if_pos rfl] at hres
        exact checkSeats_isCreated_false found rest res hres
      · intro hres
        simp only [checkSeats, h, if_neg hav, Option.some.injEq] at hres
        simp [← hres, BookResult.isCreated]

/-- If every requested label is found but some label is not available, the
validation loop fails with the 409 conflict response. -/
theorem checkSeats_conflict (found : String → Option String) :
    ∀ req : List String,
      (∀ l ∈ req, (found l).isSome) →
      (∃ l ∈ req, found l ≠ some "available") →
      ∃ m, checkSeats found req = some (.conflict m)
  | [], _, hbad => by simp at hbad
  | s :: rest, hsome, hbad => by
    obtain ⟨st, hst⟩ :=
      Option.isSome_iff_exists.mp (hsome s (List.mem_cons_self s rest))
    by_cases hav : st = "available"
    · subst hav
      have hrest : ∃ l ∈ rest, found l ≠ some "available" := by
        obtain ⟨l, hl, hlne⟩ := hbad
        rcases List.mem_cons.mp hl with rfl | hl'
        · exact absurd hst hlne
        · exact ⟨l, hl', hlne⟩
      obtain ⟨m, hm⟩ := checkSeats_conflict found rest
        (fun l hl => hsome l (List.mem_cons_of_mem _ hl)) hrest
      exact ⟨m, by simp [checkSeats, hst, hm]⟩
    · exact ⟨"Seat " ++ s ++ " is already booked",
        by simp [checkSeats, hst, hav]⟩

/-- If every label before `l` in the request is found available and `l` is
not found, the validation loop fails with the 400 `does not exist`
response naming `l`. -/
theorem checkSeats_first_missing (found : String → Option String) :
    ∀ (pre : List String) (l : String) (rest : List String),
      (∀ x ∈ pre, found x = some "available") → found l = none →
      checkSeats found (pre ++ l :: rest) =
        some (.badRequest ("Seat " ++ l ++ " does not exist"))
  | [], l, rest, _, hl => by simp [checkSeats, hl]
  | p :: pre, l, rest, hpre, hl => by
    have hp := hpre p (List.mem_cons_self p pre)
    simp only [List.cons_append, checkSeats, hp, if_pos rfl]
    exact checkSeats_first_missing found pre l rest
      (fun x hx => hpre x (List.mem_cons_of_mem _ hx)) hl

/-! ### Structural lemmas about `book_seats` -/

/-- On the success path (non-empty request, show found, validation passed,
no storage failure) `book_seats` returns the 201 response and the database
with the requested seats booked and the booking appended. -/
theorem book_seats_success_eq (db : DB) (sid : Nat) (c : String)
    (req : List String) (t : Nat) (sh : ShowRow)
    (hne : req ≠ [])
    (hsh : db.shows.find? (fun s => s.id == sid) = some sh)
    (hck : checkSeats (foundStatus db sid req) req = none) :
    book_seats false db sid c req t =
      (.created db.next_booking_id sid req (sh.price * (req.length : Int)),
       { db with
           seats := db.seats.map (bookSeat sid req),
           bookings := db.bookings ++ [mkBooking db sid c req t sh.price],
           next_booking_id := db.next_booking_id + 1 }) := by
  rw [book_seats]
  simp [List.isEmpty_iff, hne, hsh, hck]

/-! ### Lemmas about the availability dictionary -/

/-- A `seats` row of show `sid` with label `lbl` exists. -/
def seatExists (db : DB) (sid : Nat) (lbl : String) : Prop :=
  ∃ t ∈ db.seats, t.show_id = sid ∧ t.seat_label = lbl

instance (db : DB) (sid : Nat) (lbl : String) : Decidable (seatExists db sid lbl) := by
  unfold seatExists
  infer_instance

/-- `bookSeat` never changes a row's show. -/
theorem bookSeat_show_id (sid : Nat) (req : List String) (t : SeatRow) :
    (bookSeat sid req t).show_id = t.show_id := by
  unfold bookSeat
  split <;> rfl

/-- `bookSeat` never changes a row's label. -/
theorem bookSeat_seat_label (sid : Nat) (req : List String) (t : SeatRow) :
    (bookSeat sid req t).seat_label = t.seat_label := by
  unfold bookSeat
  split <;> rfl

/-- For a requested label, the availability dictionary has an entry exactly
when a matching `seats` row exists. -/
theorem foundStatus_isSome_iff (db : DB) (sid : Nat) (req : List String)
    (lbl : String) (hmem : lbl ∈ req) :
    (foundStatus db sid req lbl).isSome ↔ seatExists db sid lbl := by
  unfold foundStatus seatExists
  rw [Option.isSome_map', List.find?_isSome]
  constructor
  · rintro ⟨t, ht, hq⟩
    rw [List.mem_reverse, List.mem_filter] at ht
    have hs : t.show_id = sid := by
      have := ht.2
      simp only [Bool.and_eq_true, beq_iff_eq] at this
      exact this.1
    exact ⟨t, ht.1, hs, by simpa using hq⟩
  · rintro ⟨t, ht, hshow, hlbl⟩
    refine ⟨t, ?_, by simp [hlbl]⟩
    rw [List.mem_reverse, List.mem_filter]
    refine ⟨ht, ?_⟩
    simp only [Bool.and_eq_true, beq_iff_eq]
    exact ⟨hshow, by simp [List.contains, List.elem_iff, hlbl, hmem]⟩

/-- Updating the ledger with a show- and label-preserving row function
commutes out of the availability dictionary. -/
theorem foundStatus_map (db : DB) (sid : Nat) (req : List String) (lbl : String)
    (u : SeatRow → SeatRow)
    (hu1 : ∀ t, (u t).show_id = t.show_id)
    (hu2 : ∀ t, (u t).seat_label = t.seat_label) :
    foundStatus { db with seats := db.seats.map u } sid req lbl =
      (((db.seats.filter
            (fun t => t.show_id == sid && req.contains t.seat_label)).reverse.find?
          (fun t => t.seat_label == lbl)).map (fun t => (u t).status)) := by
  unfold foundStatus
  have h1 : ((fun t : SeatRow => t.show_id == sid && req.contains t.seat_label) ∘ u) =
      (fun t : SeatRow => t.show_id == sid && req.contains t.seat_label) := by
    funext t
    simp [Function.comp, hu1, hu2]
  have h2 : ((fun t : SeatRow => t.seat_label == lbl) ∘ u) =
      (fun t : SeatRow => t.seat_label == lbl) := by
    funext t
    simp [Function.comp, hu2]
  show ((((db.seats.map u).filter _).reverse.find? _).map _) = _
  rw [List.filter_map, ← List.map_reverse, List.find?_map, h1, h2, Option.map_map]
  rfl

/-- Row existence is preserved by a show- and label-preserving update. -/
theorem seatExists_map (db : DB) (u : SeatRow → SeatRow)
    (hu1 : ∀ t, (u t).show_id = t.show_id)
    (hu2 : ∀ t, (u t).seat_label = t.seat_label) (sid : Nat) (lbl : String) :
    seatExists { db with seats := db.seats.map u } sid lbl ↔
      seatExists db sid lbl := by
  unfold seatExists
  show (∃ t ∈ db.seats.map u, _) ↔ _
  simp only [List.mem_map]
  constructor
  · rintro ⟨t, ⟨a, ha, rfl⟩, hs, hl⟩
    exact ⟨a, ha, by rwa [hu1] at hs, by rwa [hu2] at hl⟩
  · rintro ⟨a, ha, hs, hl⟩
    exact ⟨u a, ⟨a, ha, rfl⟩, by rwa [hu1], by rwa [hu2]⟩

/-- The availability dictionary reads only the `seats` table. -/
theorem foundStatus_seats_only (db db' : DB) (h : db'.seats = db.seats)
    (sid : Nat) (req : List String) (lbl : String) :
    foundStatus db' sid req lbl = foundStatus db sid req lbl := by
  unfold foundStatus
  rw [h]

/-- Row existence reads only the `seats` table. -/
theorem seatExists_seats_only (db db' : DB) (h : db'.seats = db.seats)
    (sid : Nat) (lbl : String) :
    seatExists db' sid lbl ↔ seatExists db sid lbl := by
  unfold seatExists
  rw [h]

/-- A joined `GET /bookings` row copies the six booking columns verbatim. -/
theorem joinBookingRow_fields (db : DB) (b : BookingRow) (r : BookingListingRow)
    (h : joinBookingRow db b = some r) :
    r.id = b.id ∧ r.show_id = b.show_id ∧ r.customer_name = b.customer_name ∧
    r.seats = b.seats ∧ r.total_price = b.total_price ∧
    r.created_at = b.created_at := by
  unfold joinBookingRow at h
  cases hs : db.shows.find? (fun s => s.id == b.show_id) with
  | none => rw [hs] at h; cases h
  | some s =>
    rw [hs] at h
    simp only [Option.some_bind] at h
    cases hm : db.movies.find? (fun m => m.id == s.movie_id) with
    | none => rw [hm] at h; cases h
    | some m =>
      rw [hm] at h
      simp only [Option.some_bind] at h
      cases hc : db.cinemas.find? (fun c => c.id == s.cinema_id) with
      | none => rw [hc] at h; cases h
      | some c =>
        rw [hc] at h
        simp only [Option.map_some'] at h
        rw [← Option.some.inj h]
        exact ⟨rfl, rfl, rfl, rfl, rfl, rfl⟩

/-- After a successful booking of `r1`, a later availability query for `r2`
sees any shared, existing label as `booked`. -/
theorem foundStatus_after_book (db : DB) (sid : Nat) (r1 r2 : List String)
    (lbl : String) (h1 : lbl ∈ r1) (h2 : lbl ∈ r2)
    (hex : seatExists db sid lbl) :
    foundStatus { db with seats := db.seats.map (bookSeat sid r1) } sid r2 lbl =
      some "booked" := by
  rw [foundStatus_map db sid r2 lbl (bookSeat sid r1)
    (bookSeat_show_id sid r1) (bookSeat_seat_label sid r1)]
  have hsome : ((db.seats.filter
      (fun t => t.show_id == sid && r2.contains t.seat_label)).reverse.find?
      (fun t => t.seat_label == lbl)).isSome := by
    have := (foundStatus_isSome_iff db sid r2 lbl h2).mpr hex
    unfold foundStatus at this
    rwa [Option.isSome_map'] at this
  obtain ⟨t0, ht0⟩ := Option.isSome_iff_exists.mp hsome
  have hmem := List.mem_of_find?_eq_some ht0
  rw [List.mem_reverse, List.mem_filter] at hmem
  have hshow : t0.show_id = sid := by
    have := hmem.2
    simp only [Bool.and_eq_true, beq_iff_eq] at this
    exact this.1
  have hlbl : t0.seat_label = lbl := by
    have := List.find?_some ht0
    simpa using this
  rw [ht0]
  show some (bookSeat sid r1 t0).status = some "booked"
  unfold bookSeat
  rw [if_pos]
  simp only [Bool.and_eq_true, beq_iff_eq]
  exact ⟨hshow, by simp [List.contains, List.elem_iff, hlbl, h1]⟩

/-- Every run of `book_seats` either fails and returns the database
unchanged, or takes the success path of `book_seats_success_eq`. -/
theorem book_seats_struct (f : Bool) (db : DB) (sid : Nat) (c : String)
    (req : List String) (t : Nat) :
    ((book_seats f db sid c req t).1.isCreated = false ∧
      (book_seats f db sid c req t).2 = db) ∨
    (f = false ∧ req ≠ [] ∧
      ∃ sh, db.shows.find? (fun s => s.id == sid) = some sh ∧
        checkSeats (foundStatus db sid req) req = none ∧
        book_seats f db sid c req t =
          (.created db.next_booking_id sid req (sh.price * (req.length : Int)),
           { db with
               seats := db.seats.map (bookSeat sid req),
               bookings := db.bookings ++ [mkBooking db sid c req t sh.price],
               next_booking_id := db.next_booking_id + 1 })) := by
  by_cases hemp : req.isEmpty
  · left
    constructor <;> simp [book_seats, hemp, BookResult.isCreated]
  · cases hsh : db.shows.find? (fun s => s.id == sid) with
    | none =>
      left
      constructor <;> simp [book_seats, hemp, hsh, BookResult.isCreated]
    | some sh =>
      cases hck : checkSeats (foundStatus db sid req) req with
      | some err =>
        left
        constructor
        · simpa [book_seats, hemp, hsh, hck] using
            checkSeats_isCreated_false (foundStatus db sid req) req err hck
        · simp [book_seats, hemp, hsh, hck]
      | none =>
        cases f with
        | true =>
          left
          constructor <;> simp [book_seats, hemp, hsh, hck, BookResult.isCreated]
        | false =>
          right
          have hne : req ≠ [] := by simpa [List.isEmpty_iff] using hemp
          exact ⟨rfl, hne, sh, rfl, rfl,
            book_seats_success_eq db sid c req t sh hne hsh hck⟩

/-! ## Claim theorems -/

/-- C2: every `POST /book` call that returns any failure (missing show,
nonexistent seat, seat conflict, or storage error) leaves the seat
statuses of every show and the set of booking records exactly as they
were before the call: no seat is flipped and no booking row is appended
on any error path. -/
theorem C2_failed_reserve_leaves_state_unchanged (f : Bool) (db : DB)
    (sid : Nat) (c : String) (req : List String) (t : Nat)
    (h : (book_seats f db sid c req t).1.isCreated = false) :
    (book_seats f db sid c req t).2.seats = db.seats ∧
    (book_seats f db sid c req t).2.bookings = db.bookings ∧
    (book_seats f db sid c req t).2 = db := by
  rcases book_seats_struct f db sid c req t with ⟨_, h2⟩ | ⟨_, _, sh, _, _, heq⟩
  · exact ⟨by rw [h2], by rw [h2], h2⟩
  · rw [heq] at h
    simp [BookResult.isCreated] at h

/-- Witness for C2: a reserve call against a nonexistent show (id 2) fails
and leaves `exDB` untouched. -/
theorem C2_failed_reserve_leaves_state_unchanged_witness :
    (book_seats false exDB 2 "Asha" ["A1"] 0).1.isCreated = false ∧
    (book_seats false exDB 2 "Asha" ["A1"] 0).2 = exDB :=
  ⟨by decide,
   (C2_failed_reserve_leaves_state_unchanged false exDB 2 "Asha" ["A1"] 0
     (by decide)).2.2⟩

/-- C3: a `POST /book` call with a non-empty seat list, an existing show,
and requested seats that all exist and are all available succeeds: it
returns the 201 response, flips every requested seat to `booked`, and
appends exactly one booking row carrying a fresh identifier, the current
timestamp `t`, and the requested seats. -/
theorem C3_valid_reserve_succeeds (db : DB) (sid : Nat) (c : String)
    (req : List String) (t : Nat) (sh : ShowRow)
    (hne : req ≠ [])
    (hsh : db.shows.find? (fun s => s.id == sid) = some sh)
    (havail : ∀ l ∈ req, foundStatus db sid req l = some "available")
    (hfresh : ∀ b ∈ db.bookings, b.id < db.next_booking_id) :
    (book_seats false db sid c req t).1 =
      .created db.next_booking_id sid req (sh.price * (req.length : Int)) ∧
    (book_seats false db sid c req t).2.bookings =
      db.bookings ++ [{ id := db.next_booking_id,
                        show_id := sid,
                        customer_name := pyStrip c,
                        seats := String.intercalate "," req,
                        total_price := sh.price * (req.length : Int),
                        created_at := t }] ∧
    (∀ b ∈ db.bookings, b.id ≠ db.next_booking_id) ∧
    (∀ r ∈ (book_seats false db sid c req t).2.seats,
        r.show_id = sid → r.seat_label ∈ req → r.status = "booked") := by
  have hck := (checkSeats_eq_none_iff (foundStatus db sid req) req).mpr havail
  have heq := book_seats_success_eq db sid c req t sh hne hsh hck
  rw [heq]
  refine ⟨rfl, rfl, fun b hb => Nat.ne_of_lt (hfresh b hb), ?_⟩
  intro r hr hshow hlbl
  simp only [List.mem_map] at hr
  obtain ⟨a, ha, rfl⟩ := hr
  rw [bookSeat_show_id] at hshow
  rw [bookSeat_seat_label] at hlbl
  show (bookSeat sid req a).status = "booked"
  unfold bookSeat
  rw [if_pos]
  simp only [Bool.and_eq_true, beq_iff_eq]
  exact ⟨hshow, by simp [List.contains, List.elem_iff, hlbl]⟩

/-- Witness for C3: booking the two available seats A1, A2 of show 1 in
`exDB` succeeds with booking id 1 and both seats booked. -/
theorem C3_valid_reserve_succeeds_witness :
    (∀ l ∈ (["A1", "A2"] : List String),
        foundStatus exDB 1 ["A1", "A2"] l = some "available") ∧
    (book_seats false exDB 1 "Asha" ["A1", "A2"] 5).1 =
      .created 1 1 ["A1", "A2"] 300 :=
  ⟨by decide,
   by
    have h := C3_valid_reserve_succeeds exDB 1 "Asha" ["A1", "A2"] 5
      { id := 1, cinema_id := 1, movie_id := 1, show_time := "T",
        screen := "Screen 1", price := 150 }
      (by decide) (by decide) (by decide) (by decide)
    exact h.1.trans (by decide)⟩

/-- C6: every successful `POST /book` call returns a total price equal to
the show's price multiplied by the number of requested seat labels. -/
theorem C6_total_price (f : Bool) (db : DB) (sid : Nat) (c : String)
    (req : List String) (t : Nat) (bid sid2 : Nat) (ss : List String)
    (tot : Int) (sh : ShowRow)
    (hsh : db.shows.find? (fun s => s.id == sid) = some sh)
    (h : (book_seats f db sid c req t).1 = .created bid sid2 ss tot) :
    tot = sh.price * (req.length : Int) := by
  rcases book_seats_struct f db sid c req t with ⟨h1, _⟩ | ⟨_, _, sh', hsh', _, heq⟩
  · rw [h] at h1
    simp [BookResult.isCreated] at h1
  · rw [heq] at h
    have hshsh : sh' = sh := by
      rw [hsh] at hsh'
      exact (Option.some.inj hsh').symm
    have := (BookResult.created.injEq ..).mp h
    rw [← this.2.2.2, hshsh]

/-- Witness for C6: booking the two seats A1, A2 on show 1 (price 150) of
`exDB` yields `total_price = 150 * 2 = 300`. -/
theorem C6_total_price_witness :
    (book_seats false exDB 1 "Asha" ["A1", "A2"] 5).1 =
      .created 1 1 ["A1", "A2"] 300 ∧
    (300 : Int) = 150 * ((["A1", "A2"] : List String).length : Int) :=
  ⟨by decide,
   C6_total_price false exDB 1 "Asha" ["A1", "A2"] 5 1 1 ["A1", "A2"] 300
     { id := 1, cinema_id := 1, movie_id := 1, show_time := "T",
       screen := "Screen 1", price := 150 }
     (by decide) (by decide)⟩

/-- C1: two reserve calls that contend for a shared seat of the same show,
run as the (serializable) SQLite transactions of the handler in either
order, admit at most one winner: once the first call succeeds, the second
fails with the 409 Conflict response, observing the seat as already
booked, and leaves the database exactly as the winner left it. -/
theorem C1_at_most_one_winner (db : DB) (sid : Nat) (c1 c2 : String)
    (r1 r2 : List String) (t1 t2 : Nat) (lbl : String)
    (hl1 : lbl ∈ r1) (hl2 : lbl ∈ r2)
    (hex : ∀ l ∈ r2, seatExists db sid l)
    (hwin : (book_seats false db sid c1 r1 t1).1.isCreated = true) :
    (book_seats false (book_seats false db sid c1 r1 t1).2 sid c2 r2 t2).1.isCreated
        = false ∧
    (∃ m, (book_seats false (book_seats false db sid c1 r1 t1).2 sid c2 r2 t2).1
        = .conflict m) ∧
    (book_seats false (book_seats false db sid c1 r1 t1).2 sid c2 r2 t2).2 =
      (book_seats false db sid c1 r1 t1).2 := by
  rcases book_seats_struct false db sid c1 r1 t1 with ⟨h1, _⟩ | ⟨_, hne1, sh, hsh, hck1, heq⟩
  · rw [h1] at hwin
    cases hwin
  · have hseats1 : (book_seats false db sid c1 r1 t1).2.seats =
        db.seats.map (bookSeat sid r1) := by
      rw [heq]
    have hshows1 : (book_seats false db sid c1 r1 t1).2.shows = db.shows := by
      rw [heq]
    have hseats1' : (book_seats false db sid c1 r1 t1).2.seats =
        ({ db with seats := db.seats.map (bookSeat sid r1) } : DB).seats :=
      hseats1
    have hsome : ∀ l ∈ r2,
        (foundStatus (book_seats false db sid c1 r1 t1).2 sid r2 l).isSome := by
      intro l hl
      rw [foundStatus_isSome_iff _ sid r2 l hl,
        seatExists_seats_only { db with seats := db.seats.map (bookSeat sid r1) }
          _ hseats1',
        seatExists_map db (bookSeat sid r1) (bookSeat_show_id sid r1)
          (bookSeat_seat_label sid r1)]
      exact hex l hl
    have hbooked : foundStatus (book_seats false db sid c1 r1 t1).2 sid r2 lbl =
        some "booked" := by
      rw [foundStatus_seats_only { db with seats := db.seats.map (bookSeat sid r1) }
          _ hseats1']
      exact foundStatus_after_book db sid r1 r2 lbl hl1 hl2 (hex lbl hl2)
    obtain ⟨m, hm⟩ := checkSeats_conflict
      (foundStatus (book_seats false db sid c1 r1 t1).2 sid r2) r2 hsome
      ⟨lbl, hl2, by rw [hbooked]; simp⟩
    have hrun : book_seats false (book_seats false db sid c1 r1 t1).2 sid c2 r2 t2 =
        (.conflict m, (book_seats false db sid c1 r1 t1).2) := by
      rw [book_seats]
      simp [List.isEmpty_iff, List.ne_nil_of_mem hl2, hshows1, hsh, hm]
    rw [hrun]
    exact ⟨rfl, ⟨m, rfl⟩, rfl⟩

/-- Witness for C1: in `exDB` the requests `["A1","A2"]` and `["A2","B1"]`
share seat A2; after the first succeeds, the second is the loser. -/
theorem C1_at_most_one_winner_witness :
    ("A2" ∈ (["A1", "A2"] : List String)) ∧
    (book_seats false exDB 1 "Asha" ["A1", "A2"] 1).1.isCreated = true ∧
    (book_seats false (book_seats false exDB 1 "Asha" ["A1", "A2"] 1).2
        1 "Ravi" ["A2", "B1"] 2).1.isCreated = false :=
  ⟨by decide, by decide,
   (C1_at_most_one_winner exDB 1 "Asha" "Ravi" ["A1", "A2"] ["A2", "B1"] 1 2 "A2"
     (by decide) (by decide) (by decide) (by decide)).1⟩

/-- C4 (code evaluation): the handler accepts the duplicate-label request
`["A1","A1"]` instead of rejecting it as malformed input: on `exDB` it
books seat A1 once, records the label twice, charges twice the price
(total 300 for one seat at price 150), and reports success. -/
theorem C4_duplicate_labels_accepted :
    book_seats false exDB 1 "Ravi" ["A1", "A1"] 7 =
      (.created 1 1 ["A1", "A1"] 300,
       { exDB with
           seats := [{ id := 1, show_id := 1, seat_label := "A1",
                       status := "booked" },
                     { id := 2, show_id := 1, seat_label := "A2",
                       status := "available" },
                     { id := 3, show_id := 1, seat_label := "B1",
                       status := "available" }],
           bookings := [{ id := 1, show_id := 1, customer_name := "Ravi",
                          seats := "A1,A1", total_price := 300,
                          created_at := 7 }],
           next_booking_id := 2 }) := by decide

/-- C5 (counterexample): on a show where seat A1 is already booked and B9
does not exist, the request `["A1","B9"]` fails with the 409 Conflict for
A1 — not with the 400 InvalidSeat for B9 that a strict
existence-before-availability phase order would produce. -/
theorem C5_booked_seat_masks_missing_seat :
    (book_seats false exDBbooked 1 "Ravi" ["A1", "B9"] 0).1 =
      .conflict "Seat A1 is already booked" ∧
    (book_seats false exDBbooked 1 "Ravi" ["A1", "B9"] 0).1.isBadRequest = false := by
  decide

/-- C5 (amended): validation is interleaved per seat in request order; a
request on an existing show fails with the 400 `does not exist` response
naming label `l` exactly when `l` is the first requested label that is not
found available — i.e. when every earlier label is available and `l` is
missing — regardless of the state of the later labels. -/
theorem C5_first_offender_in_request_order (db : DB) (sid : Nat) (c : String)
    (t : Nat) (pre rest : List String) (l : String) (sh : ShowRow)
    (hsh : db.shows.find? (fun s => s.id == sid) = some sh)
    (hpre : ∀ x ∈ pre, foundStatus db sid (pre ++ l :: rest) x = some "available")
    (hl : foundStatus db sid (pre ++ l :: rest) l = none) :
    book_seats false db sid c (pre ++ l :: rest) t =
      (.badRequest ("Seat " ++ l ++ " does not exist"), db) := by
  have hck := checkSeats_first_missing (foundStatus db sid (pre ++ l :: rest))
    pre l rest hpre hl
  have hne : pre ++ l :: rest ≠ [] := by simp
  rw [book_seats]
  simp [List.isEmpty_iff, hne, hsh, hck]

/-- Witness for C5 (amended): requesting `["A2","B9","A1"]` on
`exDBbooked` (A2 available, B9 missing, A1 already booked) yields the 400
response naming B9, even though A1 is booked. -/
theorem C5_first_offender_in_request_order_witness :
    (foundStatus exDBbooked 1 ["A2", "B9", "A1"] "B9" = none) ∧
    book_seats false exDBbooked 1 "Ravi" ["A2", "B9", "A1"] 0 =
      (.badRequest "Seat B9 does not exist", exDBbooked) :=
  ⟨by decide,
   C5_first_offender_in_request_order exDBbooked 1 "Ravi" 0 ["A2"] ["A1"] "B9"
     { id := 1, cinema_id := 1, movie_id := 1, show_time := "T",
       screen := "Screen 1", price := 150 }
     (by decide) (by decide) (by decide)⟩

/-- C7: no operation ever books-back a seat: across any `book_seats` call
each `seats` row keeps its show and label, and its status either stays
what it was or steps from `available` to `booked`; consequently, starting
from statuses in `{available, booked}`, all statuses remain in
`{available, booked}` (the read accessors take the database and return
values, so they perform no transition at all). -/
theorem C7_available_to_booked_only (f : Bool) (db : DB) (sid : Nat)
    (c : String) (req : List String) (t : Nat)
    (Hinv : ∀ r ∈ db.seats, r.status = "available" ∨ r.status = "booked") :
    List.Forall₂ (fun o n => n.show_id = o.show_id ∧ n.seat_label = o.seat_label ∧
        (n.status = o.status ∨ (o.status = "available" ∧ n.status = "booked")))
      db.seats (book_seats f db sid c req t).2.seats ∧
    ∀ r ∈ (book_seats f db sid c req t).2.seats,
      r.status = "available" ∨ r.status = "booked" := by
  rcases book_seats_struct f db sid c req t with ⟨_, h2⟩ | ⟨_, _, sh, _, _, heq⟩
  · rw [h2]
    refine ⟨?_, Hinv⟩
    rw [List.forall₂_same]
    exact fun x _ => ⟨rfl, rfl, Or.inl rfl⟩
  · rw [heq]
    constructor
    · show List.Forall₂ _ db.seats (db.seats.map (bookSeat sid req))
      rw [List.forall₂_map_right_iff, List.forall₂_same]
      intro x hx
      refine ⟨bookSeat_show_id sid req x, bookSeat_seat_label sid req x, ?_⟩
      unfold bookSeat
      split
      · rcases Hinv x hx with h | h
        · exact Or.inr ⟨h, rfl⟩
        · exact Or.inl (by rw [h])
      · exact Or.inl rfl
    · intro r hr
      have hr' : r ∈ db.seats.map (bookSeat sid req) := hr
      simp only [List.mem_map] at hr'
      obtain ⟨a, ha, rfl⟩ := hr'
      unfold bookSeat
      split
      · exact Or.inr rfl
      · exact Hinv a ha

/-- Witness for C7: booking seat A1 in `exDB` keeps every status inside
`{available, booked}`. -/
theorem C7_available_to_booked_only_witness :
    (∀ r ∈ exDB.seats, r.status = "available" ∨ r.status = "booked") ∧
    ∀ r ∈ (book_seats false exDB 1 "Asha" ["A1"] 2).2.seats,
      r.status = "available" ∨ r.status = "booked" :=
  ⟨by decide,
   (C7_available_to_booked_only false exDB 1 "Asha" ["A1"] 2 (by decide)).2⟩

/-- C8 (counterexample): show 2 of `exDBshow2` exists but has no seat rows
at all, yet `seats_for_show` does not fail with NotFound: it returns the
ordinary payload `{show_id: 2, seats: []}` (its type `Nat × List _` has no
failure path at all). -/
theorem C8_no_seats_show_returns_ok :
    seats_for_show exDBshow2 2 = (2, []) := by decide

/-- C8 (amended): `seats_for_show` never fails; for a show with no seats
recorded at all it returns the ordinary payload with an empty seat list. -/
theorem C8_no_seats_yields_empty_list (db : DB) (sid : Nat)
    (h : db.seats.filter (fun t => t.show_id == sid) = []) :
    seats_for_show db sid = (sid, []) := by
  unfold seats_for_show
  rw [h]
  rfl

/-- Witness for C8 (amended): applied to show 2 of `exDBshow2`. -/
theorem C8_no_seats_yields_empty_list_witness :
    (exDBshow2.seats.filter (fun t => t.show_id == 2) = []) ∧
    seats_for_show exDBshow2 2 = (2, []) :=
  ⟨by decide, C8_no_seats_yields_empty_list exDBshow2 2 (by decide)⟩

/-- C9: appended bookings get fresh identifiers — every booking id stays
below the `AUTOINCREMENT` counter, and a newly appended row's id differs
from every pre-existing id — and `GET /bookings` returns the booking
records ordered most recent first by creation time, each row copying its
booking's columns. -/
theorem C9_fresh_ids_and_listing_order (f : Bool) (db : DB) (sid : Nat)
    (c : String) (req : List String) (t : Nat)
    (Hid : ∀ b ∈ db.bookings, b.id < db.next_booking_id)
    (Hjoin : ∀ b ∈ db.bookings, (joinBookingRow db b).isSome) :
    (∀ b ∈ (book_seats f db sid c req t).2.bookings,
        b.id < (book_seats f db sid c req t).2.next_booking_id) ∧
    (∀ b ∈ (book_seats f db sid c req t).2.bookings, b ∉ db.bookings →
        ∀ b' ∈ db.bookings, b.id ≠ b'.id) ∧
    List.Sorted (fun a b : BookingListingRow => b.created_at ≤ a.created_at)
      (list_bookings db) ∧
    (∀ b ∈ db.bookings, ∃ r ∈ list_bookings db,
        r.id = b.id ∧ r.created_at = b.created_at ∧ r.seats = b.seats ∧
        r.show_id = b.show_id ∧ r.customer_name = b.customer_name ∧
        r.total_price = b.total_price) := by
  refine ⟨?_, ?_, ?_, ?_⟩
  · rcases book_seats_struct f db sid c req t with ⟨_, h2⟩ | ⟨_, _, sh, _, _, heq⟩
    · rw [h2]
      exact Hid
    · rw [heq]
      intro b hb
      rcases List.mem_append.mp hb with hb | hb
      · exact Nat.lt_succ_of_lt (Hid b hb)
      · rcases List.mem_singleton.mp hb with rfl
        exact Nat.lt_succ_self _
  · rcases book_seats_struct f db sid c req t with ⟨_, h2⟩ | ⟨_, _, sh, _, _, heq⟩
    · rw [h2]
      intro b hb hnb
      exact absurd hb hnb
    · rw [heq]
      intro b hb hnb b' hb'
      rcases List.mem_append.mp hb with hb | hb
      · exact absurd hb hnb
      · rcases List.mem_singleton.mp hb with rfl
        intro hEq
        have : b'.id < db.next_booking_id := Hid b' hb'
        rw [← hEq] at this
        exact absurd this (lt_irrefl _)
  · unfold list_bookings
    haveI : IsTotal BookingListingRow (fun a b => b.created_at ≤ a.created_at) :=
      ⟨fun a b => Nat.le_total b.created_at a.created_at⟩
    haveI : IsTrans BookingListingRow (fun a b => b.created_at ≤ a.created_at) :=
      ⟨fun a b d h1 h2 => Nat.le_trans h2 h1⟩
    exact List.sorted_insertionSort _ _
  · intro b hb
    obtain ⟨r, hr⟩ := Option.isSome_iff_exists.mp (Hjoin b hb)
    have hmem : r ∈ list_bookings db := by
      unfold list_bookings
      exact (List.perm_insertionSort _ _).mem_iff.mpr
        (List.mem_filterMap.mpr ⟨b, hb, hr⟩)
    obtain ⟨h1, h2, h3, h4, h5, h6⟩ := joinBookingRow_fields db b r hr
    exact ⟨r, hmem, h1, h6, h4, h2, h3, h5⟩

/-- Witness for C9: on `exDBhist` (bookings created at times 3 and 5 with
ids 1 and 2) the listing is sorted most recent first and ids stay below
the counter after a further booking. -/
theorem C9_fresh_ids_and_listing_order_witness :
    (∀ b ∈ exDBhist.bookings, b.id < exDBhist.next_booking_id) ∧
    List.Sorted (fun a b : BookingListingRow => b.created_at ≤ a.created_at)
      (list_bookings exDBhist) :=
  ⟨by decide,
   (C9_fresh_ids_and_listing_order false exDBhist 1 "Asha" ["B1"] 9
     (by decide) (by decide)).2.2.1⟩

/-- C10: a reserve call touches only the requested seats of the requested
show and (possibly) appends to the booking log: shows, movies and cinemas
are returned unchanged, and every `seats` row that is not a requested
label of the requested show is returned unchanged. -/
theorem C10_reserve_frame (f : Bool) (db : DB) (sid : Nat) (c : String)
    (req : List String) (t : Nat) :
    (book_seats f db sid c req t).2.shows = db.shows ∧
    (book_seats f db sid c req t).2.movies = db.movies ∧
    (book_seats f db sid c req t).2.cinemas = db.cinemas ∧
    List.Forall₂ (fun o n => n = o ∨ (o.show_id = sid ∧ o.seat_label ∈ req))
      db.seats (book_seats f db sid c req t).2.seats ∧
    ((book_seats f db sid c req t).2.bookings = db.bookings ∨
      ∃ b, (book_seats f db sid c req t).2.bookings = db.bookings ++ [b]) := by
  rcases book_seats_struct f db sid c req t with ⟨_, h2⟩ | ⟨_, _, sh, _, _, heq⟩
  · rw [h2]
    refine ⟨rfl, rfl, rfl, ?_, Or.inl rfl⟩
    rw [List.forall₂_same]
    exact fun x _ => Or.inl rfl
  · rw [heq]
    refine ⟨rfl, rfl, rfl, ?_, Or.inr ⟨_, rfl⟩⟩
    show List.Forall₂ _ db.seats (db.seats.map (bookSeat sid req))
    rw [List.forall₂_map_right_iff, List.forall₂_same]
    intro x hx
    unfold bookSeat
    split
    next hcond =>
      right
      simp only [Bool.and_eq_true, beq_iff_eq] at hcond
      exact ⟨hcond.1, by simpa [List.contains, List.elem_iff] using hcond.2⟩
    next => left; rfl
